import Mathlib

/-!
Verification development for the avid push-to-talk dictation pipeline.

The Lean definitions below are a shallow embedding of the Python sources:

* `src/audio.py` : class AudioRecorder (frame buffer, recording flag,
  persistent input stream, amplitude metering),
* `src/server.py` : class WhisperServer (readiness probe, spawn, bounded
  polling loop),
* `src/transcribe.py` : class Transcriber (HTTP call to the local whisper
  server, fallback JSON parse, empty-string failure sentinel),
* `src/format_llm.py` : class Formatter (LLM cleanup with total fallback to
  the raw text),
* `src/main.py` : DictationApp.on_ptt_release (the processing phase of one
  dictation session).

External effects (the sound device, the spawned process, HTTP traffic, the
filesystem) are passed in as explicit parameters describing the outcome the
environment produces, so every function below is total and executable.
Audio samples are embedded as real numbers.
-/

namespace Avid

/-! ### Python `str.strip`

`strip` removes leading and trailing whitespace, as Python `str.strip()`
does.  It is used by `Transcriber.transcribe` (`response.text.strip()`),
`Formatter.format` (`raw_text.strip()`) and `DictationApp.on_ptt_release`
(`raw_text.strip()`). -/

/-- Leading and trailing whitespace removal on the character list. -/
def stripChars (l : List Char) : List Char :=
  (l.dropWhile Char.isWhitespace).rdropWhile Char.isWhitespace

/-- Python `str.strip()`. -/
def strip (s : String) : String :=
  ⟨stripChars s.data⟩

/-- Dropping a whitespace prefix from an already left-then-right stripped
list changes nothing: the first remaining character is not whitespace. -/
theorem dropWhile_rdropWhile_dropWhile (p : Char → Bool) (l : List Char) :
    ((l.dropWhile p).rdropWhile p).dropWhile p = (l.dropWhile p).rdropWhile p := by
  rw [List.dropWhile_eq_self_iff]
  intro hl
  have hpre := List.rdropWhile_prefix p (l.dropWhile p)
  have hlen : 0 < (l.dropWhile p).length :=
    lt_of_lt_of_le hl hpre.length_le
  have hget := List.IsPrefix.getElem hpre hl
  simp only [List.get_eq_getElem]
  rw [hget]
  have := List.dropWhile_get_zero_not p l hlen
  simpa using this

/-- `stripChars` is idempotent. -/
theorem stripChars_idem (l : List Char) : stripChars (stripChars l) = stripChars l := by
  unfold stripChars
  rw [dropWhile_rdropWhile_dropWhile, List.rdropWhile_idempotent]

/-- `strip` is idempotent, matching Python `s.strip().strip() == s.strip()`. -/
theorem strip_strip (s : String) : strip (strip s) = strip s :=
  congrArg String.mk (stripChars_idem s.data)

/-! ### `src/audio.py` — class AudioRecorder

State of one `AudioRecorder` instance.  `frames` is `self._frames`, the
buffered audio frames in arrival order (most recent last), each frame a
vector of float samples.  `stream` is `self._stream`: `none` when no input
stream object exists, `some active` when a stream object exists with the
given activity status.  `isRecording` is `self._is_recording`. -/

structure RecorderState where
  frames : List (List ℝ)
  stream : Option Bool
  isRecording : Bool

namespace AudioRecorder

/-- `AudioRecorder._audio_callback`: appends a copy of the delivered frame
to the buffer only while the recording flag is set. -/
def audio_callback (s : RecorderState) (indata : List ℝ) : RecorderState :=
  if s.isRecording then { s with frames := s.frames ++ [indata] } else s

/-- `AudioRecorder.start_recording`.  `startOk` tells whether the
stream-creation / stream-start calls into the sound device succeed (the
`try` body) or raise (the `except` branch).  Returns the boolean result
together with the successor state. -/
def start_recording (startOk : Bool) (s : RecorderState) : Bool × RecorderState :=
  if s.isRecording then
    (true, s)
  else
    match s.stream with
    | none =>
        if startOk then
          (true, { frames := [], stream := some true, isRecording := true })
        else
          (false, { s with stream := none, isRecording := false })
    | some false =>
        if startOk then
          (true, { s with frames := [], stream := some true, isRecording := true })
        else
          (false, { s with stream := none, isRecording := false })
    | some true =>
        (true, { s with frames := [], isRecording := true })

/-- `AudioRecorder.stop_recording`.  `writeOk` tells whether
`scipy.io.wavfile.write` succeeds.  The frame buffer is snapshotted, not
cleared, and the stream object is left untouched. -/
def stop_recording (writeOk : Bool) (s : RecorderState) : Bool × RecorderState :=
  if !s.isRecording then
    (false, s)
  else if s.frames.isEmpty then
    (false, { s with isRecording := false })
  else
    (writeOk, { s with isRecording := false })

/-- Root mean square of one frame: `np.sqrt(np.mean(recent_frame ** 2))`. -/
noncomputable def rms (frame : List ℝ) : ℝ :=
  Real.sqrt ((frame.map (fun x => x ^ 2)).sum / frame.length)

/-- `AudioRecorder.get_amplitude`: `0.0` when not recording or no frames
buffered; otherwise the RMS of the most recent frame (`self._frames[-1]`),
collapsed to `0.0` below the `0.002` noise floor, else pushed through the
loudness curve `min(1.0, (rms * 24.0) ** 0.65)`. -/
noncomputable def get_amplitude (s : RecorderState) : ℝ :=
  if !s.isRecording then 0
  else
    match s.frames.getLast? with
    | none => 0
    | some recent_frame =>
        let r := rms recent_frame
        if r < 0.002 then 0
        else min 1 ((r * 24) ^ (0.65 : ℝ))

/-- Negate every sample of every buffered frame. -/
def negateSamples (s : RecorderState) : RecorderState :=
  { s with frames := s.frames.map (fun f => f.map (fun x => -x)) }

end AudioRecorder

/-! ### `src/server.py` — class WhisperServer -/

/-- Abstract outcome of `WhisperServer.start`.  The Python method returns
`None`; the distinct exits of its control flow are: the early `return`
after a successful probe (`ready`), the `break` after `poll()` reports the
child exited (`processExited`), falling out of the 20-iteration loop
(`timeout`), and the `except` branch around `subprocess.Popen`
(`spawnFailed`). -/
inductive StartOutcome where
  | ready
  | processExited
  | timeout
  | spawnFailed
deriving DecidableEq

namespace WhisperServer

/-- The bounded readiness-polling loop of `WhisperServer.start`:
per iteration it probes the port (`is_port_open`), sleeps 500 ms, then
checks `self.process.poll()`.  `portOpen i` / `exited i` are the
observations of probe and poll at iteration `i`; `fuel` is the remaining
attempt budget. -/
def pollLoop (portOpen exited : Nat → Bool) : Nat → Nat → StartOutcome
  | _, 0 => .timeout
  | i, fuel + 1 =>
    if portOpen i then .ready
    else if exited i then .processExited
    else pollLoop portOpen exited (i + 1) fuel

/-- `WhisperServer.start`.  `portAlreadyOpen` is the initial
`is_port_open()` probe; `spawnOk` tells whether `subprocess.Popen`
succeeds; `portOpen` / `exited` are the per-iteration observations of the
20-attempt polling loop.  The boolean records whether a backend process
was spawned. -/
def start (portAlreadyOpen spawnOk : Bool) (portOpen exited : Nat → Bool) :
    StartOutcome × Bool :=
  if portAlreadyOpen then (.ready, false)
  else if spawnOk then (pollLoop portOpen exited 0 20, true)
  else (.spawnFailed, false)

end WhisperServer

/-! ### `src/transcribe.py` — class Transcriber -/

/-- Outcome of the `requests.post` call in `Transcriber.transcribe`.
`response status body jsonText` is a completed HTTP response; `jsonText`
is `some t` when the body parses as JSON carrying a `text` field `t`
(the fallback parse in the code), `none` otherwise.  `timeout` is a
`requests.Timeout`, `connectionError` a
`requests.exceptions.ConnectionError`, `otherError` any other exception. -/
inductive HttpResult where
  | timeout
  | connectionError
  | otherError
  | response (status : Nat) (body : String) (jsonText : Option String)

/-- Which exit of `Transcriber.transcribe` produced the result: the
missing-file early return, the HTTP 200 path, the non-200 path, the
dedicated `except requests.exceptions.ConnectionError` handler, or the
blanket `except Exception` handler (which also receives timeouts). -/
inductive TranscribePath where
  | fileNotFound
  | success
  | serverError
  | connectionFailed
  | genericError
deriving DecidableEq

namespace Transcriber

/-- `Transcriber.transcribe`: returns the transcript (the empty string is
the failure sentinel, per the docstring "Transcript text, or empty string
on failure") together with the exit path taken. -/
def transcribe (fileExists : Bool) (r : HttpResult) : String × TranscribePath :=
  if !fileExists then ("", .fileNotFound)
  else
    match r with
    | .timeout => ("", .genericError)
    | .connectionError => ("", .connectionFailed)
    | .otherError => ("", .genericError)
    | .response status body jsonText =>
        if status = 200 then
          match jsonText with
          | some t => (strip t, .success)
          | none => (strip body, .success)
        else ("", .serverError)

end Transcriber

/-! ### `src/format_llm.py` — class Formatter -/

/-- The dictation modes the application can be in (`config.mode`). -/
inductive Mode where
  | default
  | message
  | email
  | notes
  | prompt
deriving DecidableEq

/-- Outcome of the `requests.post` call in `Formatter.format`:
`requests.Timeout`, another `requests.RequestException` (including the
`raise_for_status` failure on a non-2xx response), a response whose JSON
lacks the expected shape (`KeyError` / `IndexError` / any other
exception), or a well-formed response with the returned message content. -/
inductive LLMResult where
  | timeout
  | requestError
  | parseError
  | ok (content : String)

namespace Formatter

/-- `Formatter.format`.  `enabled` is `self._enabled` (an API key is
configured).  Returns the produced text together with a flag recording
whether an HTTP request to the formatting service was issued.  All
exception handlers return `raw_text`; the function is total, so the
embedding also witnesses that `format` never raises. -/
def format (enabled : Bool) (raw_text : String) (mode : Mode) (r : LLMResult) :
    String × Bool :=
  if strip raw_text = "" then (raw_text, false)
  else if !enabled then (raw_text, false)
  else
    match r with
    | .ok content => (strip content, true)
    | _ => (raw_text, true)

end Formatter

/-! ### `src/main.py` — DictationApp.on_ptt_release -/

/-- Observable effects of one run of the processing phase: whether the
transcriber was invoked, whether the formatting collaborator was invoked,
and the text handed to the injector (`none` when the injector is never
called). -/
structure ReleaseOutcome where
  transcriberCalled : Bool
  formatterCalled : Bool
  injected : Option String
deriving DecidableEq

namespace DictationApp

/-- `DictationApp.on_ptt_release`, from `stop_recording` onward.
`stopOk` is the boolean returned by `AudioRecorder.stop_recording`;
`transcript` is the string returned by `Transcriber.transcribe`; `fmt` is
the formatting collaborator `self.formatter.format(·, mode)`.  The
function returns on every path, so the session always ends back in the
idle state. -/
def on_ptt_release (stopOk : Bool) (transcript : String) (fmt : String → String) :
    ReleaseOutcome :=
  if !stopOk then ⟨false, false, none⟩
  else if transcript = "" ∨ strip transcript = "" then ⟨true, false, none⟩
  else if (strip transcript).length < 3 then ⟨true, false, some (strip transcript)⟩
  else ⟨true, true, some (fmt transcript)⟩

end DictationApp

/-! ### Helper lemmas -/

/-- The empty string strips to itself. -/
theorem strip_empty : strip "" = "" := rfl

/-- Every string returned by `Transcriber.transcribe` is already stripped:
each return site produces either the empty sentinel or a stripped string. -/
theorem transcribe_stripped (fileExists : Bool) (r : HttpResult) :
    strip (Transcriber.transcribe fileExists r).1 = (Transcriber.transcribe fileExists r).1 := by
  cases fileExists
  · simp [Transcriber.transcribe, strip_empty]
  · rcases r with _ | _ | _ | ⟨status, body, jsonText⟩ <;>
      simp [Transcriber.transcribe, strip_empty]
    by_cases hs : status = 200
    · rcases jsonText with _ | t <;> simp [hs, strip_strip]
    · simp [hs, strip_empty]

/-- The frame callback never changes the recording flag. -/
theorem audio_callback_isRecording (s : RecorderState) (f : List ℝ) :
    (AudioRecorder.audio_callback s f).isRecording = s.isRecording := by
  unfold AudioRecorder.audio_callback
  split <;> rfl

/-- Folding any sequence of frame callbacks never changes the recording
flag. -/
theorem foldl_audio_callback_isRecording (fs : List (List ℝ)) (s : RecorderState) :
    (fs.foldl AudioRecorder.audio_callback s).isRecording = s.isRecording := by
  induction fs generalizing s with
  | nil => rfl
  | cons f fs ih => rw [List.foldl_cons, ih, audio_callback_isRecording]

/-- `start_recording` on an already-recording state returns success and
the unchanged state. -/
theorem start_recording_of_recording {ok : Bool} {s : RecorderState}
    (h : s.isRecording = true) : AudioRecorder.start_recording ok s = (true, s) := by
  simp [AudioRecorder.start_recording, h]

/-- A successful `start_recording` leaves the recorder recording. -/
theorem start_recording_success_isRecording {ok : Bool} {s : RecorderState}
    (h : (AudioRecorder.start_recording ok s).1 = true) :
    ((AudioRecorder.start_recording ok s).2).isRecording = true := by
  rcases s with ⟨fr, st, rec⟩
  rcases st with _ | b
  · cases rec <;> cases ok <;> simp_all [AudioRecorder.start_recording]
  · cases b <;> cases rec <;> cases ok <;> simp_all [AudioRecorder.start_recording]

/-- `getLast?` commutes with `map`. -/
theorem getLast?_map {α β : Type} (g : α → β) (l : List α) :
    (l.map g).getLast? = (l.getLast?).map g := by
  induction l with
  | nil => rfl
  | cons a t ih =>
    cases t with
    | nil => rfl
    | cons b t2 =>
      simpa [List.getLast?_cons_cons] using ih

/-- The RMS of a frame is nonnegative. -/
theorem rms_nonneg (f : List ℝ) : 0 ≤ AudioRecorder.rms f :=
  Real.sqrt_nonneg _

/-- The RMS only depends on the squares of the samples, so negating every
sample leaves it unchanged. -/
theorem rms_neg (f : List ℝ) :
    AudioRecorder.rms (f.map (fun x => -x)) = AudioRecorder.rms f := by
  simp [AudioRecorder.rms, List.map_map, Function.comp_def, neg_sq]

/-- If the first successful probe comes at relative attempt `k` inside the
budget, with neither an earlier successful probe nor an earlier observed
exit, the polling loop reports readiness. -/
theorem pollLoop_ready (pO pE : Nat → Bool) :
    ∀ (fuel i k : Nat), k < fuel → pO (i + k) = true →
      (∀ j, j < k → pO (i + j) = false ∧ pE (i + j) = false) →
      WhisperServer.pollLoop pO pE i fuel = .ready := by
  intro fuel
  induction fuel with
  | zero => intro i k hk _ _; exact absurd hk (Nat.not_lt_zero k)
  | succ fuel ih =>
    intro i k hk hopen hprev
    cases k with
    | zero =>
      rw [Nat.add_zero] at hopen
      simp [WhisperServer.pollLoop, hopen]
    | succ k2 =>
      have h0 := hprev 0 (Nat.succ_pos k2)
      rw [Nat.add_zero] at h0
      simp only [WhisperServer.pollLoop, h0.1, h0.2, Bool.false_eq_true, if_false]
      apply ih (i + 1) k2 (Nat.lt_of_succ_lt_succ hk)
      · have he : i + 1 + k2 = i + (k2 + 1) := by omega
        rw [he]; exact hopen
      · intro j hj
        have he : i + 1 + j = i + (j + 1) := by omega
        rw [he]
        exact hprev (j + 1) (Nat.succ_lt_succ hj)

/-- If the child is observed exited at relative attempt `k` inside the
budget, with no successful probe up to and including `k` and no earlier
observed exit, the polling loop reports the process exit. -/
theorem pollLoop_exited (pO pE : Nat → Bool) :
    ∀ (fuel i k : Nat), k < fuel → pE (i + k) = true →
      (∀ j, j ≤ k → pO (i + j) = false) →
      (∀ j, j < k → pE (i + j) = false) →
      WhisperServer.pollLoop pO pE i fuel = .processExited := by
  intro fuel
  induction fuel with
  | zero => intro i k hk _ _ _; exact absurd hk (Nat.not_lt_zero k)
  | succ fuel ih =>
    intro i k hk hexit hopen hprev
    cases k with
    | zero =>
      have h0 := hopen 0 (Nat.le_refl 0)
      rw [Nat.add_zero] at h0 hexit
      simp [WhisperServer.pollLoop, h0, hexit]
    | succ k2 =>
      have h0o := hopen 0 (Nat.zero_le _)
      have h0e := hprev 0 (Nat.succ_pos k2)
      rw [Nat.add_zero] at h0o h0e
      simp only [WhisperServer.pollLoop, h0o, h0e, Bool.false_eq_true, if_false]
      apply ih (i + 1) k2 (Nat.lt_of_succ_lt_succ hk)
      · have he : i + 1 + k2 = i + (k2 + 1) := by omega
        rw [he]; exact hexit
      · intro j hj
        have he : i + 1 + j = i + (j + 1) := by omega
        rw [he]
        exact hopen (j + 1) (Nat.succ_le_succ hj)
      · intro j hj
        have he : i + 1 + j = i + (j + 1) := by omega
        rw [he]
        exact hprev (j + 1) (Nat.succ_lt_succ hj)

/-- If no probe succeeds and no exit is observed during the whole budget,
the polling loop times out. -/
theorem pollLoop_timeout (pO pE : Nat → Bool) :
    ∀ (fuel i : Nat), (∀ k, k < fuel → pO (i + k) = false ∧ pE (i + k) = false) →
      WhisperServer.pollLoop pO pE i fuel = .timeout := by
  intro fuel
  induction fuel with
  | zero => intro i _; rfl
  | succ fuel ih =>
    intro i h
    have h0 := h 0 (Nat.succ_pos fuel)
    rw [Nat.add_zero] at h0
    simp only [WhisperServer.pollLoop, h0.1, h0.2, Bool.false_eq_true, if_false]
    apply ih
    intro k hk
    have he : i + 1 + k = i + (k + 1) := by omega
    rw [he]
    exact h (k + 1) (Nat.succ_lt_succ hk)

/-! ### Claim theorems -/

/-- C1: when `WhisperServer.start` finds the endpoint closed and spawns the
backend process, the call ends with the ready return on the first
successful probe; with the process-exited break when the child is observed
exited before any probe succeeds; and with the timeout exit when all 20
polling attempts (at 500 ms intervals) pass without a successful probe or
an observed exit. -/
theorem ensureRunning_spawned_outcomes (pO pE : Nat → Bool) :
    ((∃ k, k < 20 ∧ pO k = true ∧ ∀ j, j < k → pO j = false ∧ pE j = false) →
      WhisperServer.start false true pO pE = (.ready, true)) ∧
    ((∃ k, k < 20 ∧ pE k = true ∧ (∀ j, j ≤ k → pO j = false) ∧
        (∀ j, j < k → pE j = false)) →
      WhisperServer.start false true pO pE = (.processExited, true)) ∧
    ((∀ k, k < 20 → pO k = false ∧ pE k = false) →
      WhisperServer.start false true pO pE = (.timeout, true)) := by
  refine ⟨?_, ?_, ?_⟩
  · rintro ⟨k, hk, hopen, hprev⟩
    have hp : WhisperServer.pollLoop pO pE 0 20 = .ready := by
      apply pollLoop_ready pO pE 20 0 k hk
      · rw [Nat.zero_add]; exact hopen
      · intro j hj; rw [Nat.zero_add]; exact hprev j hj
    simp [WhisperServer.start, hp]
  · rintro ⟨k, hk, hexit, hopen, hprev⟩
    have hp : WhisperServer.pollLoop pO pE 0 20 = .processExited := by
      apply pollLoop_exited pO pE 20 0 k hk
      · rw [Nat.zero_add]; exact hexit
      · intro j hj; rw [Nat.zero_add]; exact hopen j hj
      · intro j hj; rw [Nat.zero_add]; exact hprev j hj
    simp [WhisperServer.start, hp]
  · intro h
    have hp : WhisperServer.pollLoop pO pE 0 20 = .timeout := by
      apply pollLoop_timeout
      intro k hk
      rw [Nat.zero_add]
      exact h k hk
    simp [WhisperServer.start, hp]

/-- Witness for C1: concrete observation traces realising each of the
three outcomes. -/
theorem ensureRunning_spawned_outcomes_witness :
    WhisperServer.start false true (fun k => k == 2) (fun _ => false) = (.ready, true) ∧
    WhisperServer.start false true (fun _ => false) (fun k => k == 1) =
      (.processExited, true) ∧
    WhisperServer.start false true (fun _ => false) (fun _ => false) = (.timeout, true) := by
  refine ⟨?_, ?_, ?_⟩
  · exact (ensureRunning_spawned_outcomes _ _).1 ⟨2, by omega, by decide, by decide⟩
  · exact (ensureRunning_spawned_outcomes _ _).2.1
      ⟨1, by omega, by decide, by decide, by decide⟩
  · exact (ensureRunning_spawned_outcomes _ _).2.2 (by decide)

/-- C2: `Transcriber.transcribe` applies the configured bounded timeout to
the request; a timeout is absorbed by the blanket exception handler and a
connection failure by the dedicated `ConnectionError` handler, each
returning the empty-string failure sentinel (the code encoding of the
error result); a 200 response returns the transcript stripped of
surrounding whitespace (from the JSON `text` field when the fallback JSON
parse applies, else the raw body). -/
theorem transcribe_timeout_connection_success (body t : String) :
    Transcriber.transcribe true .timeout = ("", .genericError) ∧
    Transcriber.transcribe true .connectionError = ("", .connectionFailed) ∧
    Transcriber.transcribe true (.response 200 body none) = (strip body, .success) ∧
    Transcriber.transcribe true (.response 200 body (some t)) = (strip t, .success) :=
  ⟨rfl, rfl, rfl, rfl⟩

/-- C8: when the configured endpoint already accepts connections,
`WhisperServer.start` returns immediately through the ready path and no
backend process is spawned, for every spawn environment and observation
trace. -/
theorem ensureRunning_port_open_no_spawn (spawnOk : Bool) (pO pE : Nat → Bool) :
    WhisperServer.start true spawnOk pO pE = (.ready, false) := rfl

/-- C9: whatever state `stop_recording` starts from and whether the WAV
write succeeds or fails, the state it returns has the recording flag
cleared: a stop that fails partway (not recording, no frames, or write
failure) still ends the recording session. -/
theorem stop_recording_clears_flag (writeOk : Bool) (s : RecorderState) :
    ((AudioRecorder.stop_recording writeOk s).2).isRecording = false := by
  rcases s with ⟨fr, st, rec⟩
  cases rec
  · rfl
  · by_cases h : fr.isEmpty <;> simp [AudioRecorder.stop_recording, h]

/-- C5: restarting while already recording is idempotent.  After a
successful `start_recording` and any sequence of frame callbacks, a second
`start_recording` (under any device environment) returns success and the
exact same state, so the frame buffer accumulated since the first start is
preserved unchanged. -/
theorem start_recording_idempotent (ok1 ok2 : Bool) (s : RecorderState)
    (fs : List (List ℝ)) (h : (AudioRecorder.start_recording ok1 s).1 = true) :
    AudioRecorder.start_recording ok2
        (fs.foldl AudioRecorder.audio_callback (AudioRecorder.start_recording ok1 s).2) =
      (true,
        fs.foldl AudioRecorder.audio_callback (AudioRecorder.start_recording ok1 s).2) := by
  apply start_recording_of_recording
  rw [foldl_audio_callback_isRecording]
  exact start_recording_success_isRecording h

/-- Witness for C5: a fresh recorder, one captured frame, then a second
start. -/
theorem start_recording_idempotent_witness :
    AudioRecorder.start_recording true
        ([[(1 : ℝ)]].foldl AudioRecorder.audio_callback
          (AudioRecorder.start_recording true ⟨[], none, false⟩).2) =
      (true,
        [[(1 : ℝ)]].foldl AudioRecorder.audio_callback
          (AudioRecorder.start_recording true ⟨[], none, false⟩).2) :=
  start_recording_idempotent true true ⟨[], none, false⟩ [[(1 : ℝ)]] rfl

/-- C6: `Formatter.format` returns the raw input text unchanged on every
internal failure: when disabled because no API key is configured, and on a
timeout, any other request error (including non-2xx responses rejected by
`raise_for_status`), or a malformed/unparseable response.  The embedding
is a total function, witnessing that `format` never raises to its
caller. -/
theorem format_returns_raw_on_failure (raw : String) (mode : Mode) (r : LLMResult) :
    (Formatter.format false raw mode r).1 = raw ∧
    (Formatter.format true raw mode .timeout).1 = raw ∧
    (Formatter.format true raw mode .requestError).1 = raw ∧
    (Formatter.format true raw mode .parseError).1 = raw := by
  by_cases h : strip raw = "" <;> simp [Formatter.format, h]

/-- C10: for every mode, an input that is empty or whitespace-only makes
`Formatter.format` return the input unchanged without issuing any request
to the formatting service, even when the formatter is enabled. -/
theorem format_blank_input_no_request (enabled : Bool) (raw : String) (mode : Mode)
    (r : LLMResult) (h : strip raw = "") :
    Formatter.format enabled raw mode r = (raw, false) := by
  simp [Formatter.format, h]

/-- Witness for C10: a single space, with the formatter enabled. -/
theorem format_blank_input_no_request_witness :
    Formatter.format true " " Mode.email (LLMResult.ok "x") = (" ", false) :=
  format_blank_input_no_request true " " Mode.email (LLMResult.ok "x") (by decide)

/-- C7: when capture succeeded (`stop_recording` returned true) but the
transcript is empty or whitespace-only, the processing phase never calls
the injector (and never calls the formatter); the handler returns, ending
the session back in the idle state. -/
theorem empty_transcript_skips_injection (t : String) (fmt : String → String)
    (h : strip t = "") :
    DictationApp.on_ptt_release true t fmt = ⟨true, false, none⟩ := by
  simp [DictationApp.on_ptt_release, h]

/-- Witness for C7: a whitespace-only transcript. -/
theorem empty_transcript_skips_injection_witness :
    DictationApp.on_ptt_release true " " id = ⟨true, false, none⟩ :=
  empty_transcript_skips_injection " " id (by decide)

/-- C3: for every transcript actually produced by the transcriber that is
non-empty and shorter than 3 characters after stripping, the processing
phase does not invoke the formatting collaborator and hands the transcript
itself, verbatim, to the injector (transcriber outputs are already
stripped, so the `raw_text.strip()` in this branch is the identity). -/
theorem short_transcript_skips_formatter (fileExists : Bool) (hr : HttpResult)
    (fmt : String → String)
    (h1 : (Transcriber.transcribe fileExists hr).1 ≠ "")
    (h2 : (strip (Transcriber.transcribe fileExists hr).1).length < 3) :
    DictationApp.on_ptt_release true (Transcriber.transcribe fileExists hr).1 fmt =
      ⟨true, false, some ((Transcriber.transcribe fileExists hr).1)⟩ := by
  have hs := transcribe_stripped fileExists hr
  rw [hs] at h2
  simp [DictationApp.on_ptt_release, h1, hs, h2]

/-- Witness for C3: a 2-character transcript coming back from the
backend. -/
theorem short_transcript_skips_formatter_witness :
    DictationApp.on_ptt_release true
        (Transcriber.transcribe true (.response 200 "hi" none)).1 id =
      ⟨true, false, some ((Transcriber.transcribe true (.response 200 "hi" none)).1)⟩ :=
  short_transcript_skips_formatter true (.response 200 "hi" none) id
    (by decide) (by decide)

/-- C4: for every recorder state, `get_amplitude` lies in `[0, 1]`; it is
exactly `0` when the recording flag is clear, when no frames have been
captured, and when the RMS of the most recent frame is below the `0.002`
noise floor; and it is invariant under negating the sign of every buffered
sample, since it depends on the samples only through the RMS. -/
theorem amplitude_bounds_and_sign_invariance (s : RecorderState) :
    0 ≤ AudioRecorder.get_amplitude s ∧
    AudioRecorder.get_amplitude s ≤ 1 ∧
    (s.isRecording = false → AudioRecorder.get_amplitude s = 0) ∧
    (s.frames = [] → AudioRecorder.get_amplitude s = 0) ∧
    (∀ f, s.frames.getLast? = some f → AudioRecorder.rms f < 0.002 →
      AudioRecorder.get_amplitude s = 0) ∧
    AudioRecorder.get_amplitude (AudioRecorder.negateSamples s) =
      AudioRecorder.get_amplitude s := by
  rcases s with ⟨fr, st, rec⟩
  cases rec
  · exact ⟨le_refl _, zero_le_one, fun _ => rfl, fun _ => rfl, fun _ _ _ => rfl, rfl⟩
  · cases hl : fr.getLast? with
    | none =>
      have h1 : AudioRecorder.get_amplitude ⟨fr, st, true⟩ = 0 := by
        simp [AudioRecorder.get_amplitude, hl]
      have h2 : AudioRecorder.get_amplitude
          (AudioRecorder.negateSamples ⟨fr, st, true⟩) = 0 := by
        simp [AudioRecorder.get_amplitude, AudioRecorder.negateSamples, getLast?_map, hl]
      refine ⟨by rw [h1], by rw [h1]; exact zero_le_one, fun _ => h1, fun _ => h1,
        ?_, by rw [h2, h1]⟩
      intro g hg _
      simp [hl] at hg
    | some f =>
      by_cases hr : AudioRecorder.rms f < 0.002
      · have h1 : AudioRecorder.get_amplitude ⟨fr, st, true⟩ = 0 := by
          simp [AudioRecorder.get_amplitude, hl, hr]
        have h2 : AudioRecorder.get_amplitude
            (AudioRecorder.negateSamples ⟨fr, st, true⟩) = 0 := by
          simp [AudioRecorder.get_amplitude, AudioRecorder.negateSamples, getLast?_map,
            hl, rms_neg, hr]
        refine ⟨by rw [h1], by rw [h1]; exact zero_le_one, fun h => by simp at h,
          fun h => by simp only [] at h; rw [h] at hl; simp at hl, ?_, by rw [h2, h1]⟩
        exact fun _ _ _ => h1
      · have h1 : AudioRecorder.get_amplitude ⟨fr, st, true⟩ =
            min 1 ((AudioRecorder.rms f * 24) ^ (0.65 : ℝ)) := by
          simp [AudioRecorder.get_amplitude, hl, hr]
        have h2 : AudioRecorder.get_amplitude
            (AudioRecorder.negateSamples ⟨fr, st, true⟩) =
            min 1 ((AudioRecorder.rms f * 24) ^ (0.65 : ℝ)) := by
          simp [AudioRecorder.get_amplitude, AudioRecorder.negateSamples, getLast?_map,
            hl, rms_neg, hr]
        have hpow : (0 : ℝ) ≤ (AudioRecorder.rms f * 24) ^ (0.65 : ℝ) :=
          Real.rpow_nonneg (mul_nonneg (rms_nonneg f) (by norm_num)) _
        refine ⟨by rw [h1]; exact le_min zero_le_one hpow,
          by rw [h1]; exact min_le_left _ _,
          fun h => by simp at h,
          fun h => by simp only [] at h; rw [h] at hl; simp at hl, ?_, by rw [h2, h1]⟩
        intro g hg hrg
        simp [hl] at hg
        rw [← hg] at hrg
        exact absurd hrg hr

/-- Witness for C4: a recorder that is not recording, a recording recorder
with no frames, and a recording recorder whose most recent frame is
silent. -/
theorem amplitude_bounds_and_sign_invariance_witness :
    AudioRecorder.get_amplitude ⟨[], none, false⟩ = 0 ∧
    AudioRecorder.get_amplitude ⟨[], some true, true⟩ = 0 ∧
    AudioRecorder.get_amplitude ⟨[[0]], some true, true⟩ = 0 := by
  refine ⟨(amplitude_bounds_and_sign_invariance _).2.2.1 rfl,
    (amplitude_bounds_and_sign_invariance _).2.2.2.1 rfl,
    (amplitude_bounds_and_sign_invariance _).2.2.2.2.1 [(0 : ℝ)] rfl ?_⟩
  have h0 : AudioRecorder.rms [(0 : ℝ)] = 0 := by
    simp [AudioRecorder.rms]
  rw [h0]
  norm_num

end Avid
